import Mathlib

/-
  Verification of the capture-encode-upload-notify pipeline of the pulse
  repository (src/src-tauri/src/modules/upload.rs, src/src-tauri/src/lib.rs,
  src/tauri/src/modules/utils.rs).

  Modelling conventions (shallow embedding):
  * Machine integers are Nat; usize / u32 wrap-around is written explicitly
    with % where the source performs an as-cast.
  * The HTTP transport is modelled by a finite trace of per-attempt server
    behaviours (a List HttpAttempt); each issued request consumes one element.
    A result of none means the code would issue yet another HTTP attempt but
    the modelled trace is exhausted.
  * serde_json parsing of a response body is modelled by an Option Json field
    carried alongside the raw body text (none = the body is not valid JSON).
  * Error strings follow the source format strings; the Display rendering of
    an HTTP status is abbreviated to its numeric code, and the quote marks in
    the source message for a missing url field are dropped. No theorem below
    depends on those abbreviations.
-/

namespace Pulse

/-- The UploadResult record serialized to the UI
(src/tauri/src/modules/mod.rs, also declared in src/src-tauri/src/lib.rs). -/
structure UploadResult where
  success : Bool
  url : Option String
  filename : Option String
  size : Option String
  duration : Option String
  error : Option String
deriving Repr, DecidableEq

/-- Nearest integer to num/den with ties rounded to the even integer.
This is the rounding the Rust floating formatter applies at the last kept
digit when the value is exactly representable. -/
def roundHalfToEven (num den : Nat) : Nat :=
  let q := num / den
  let r := num % den
  if 2 * r < den then q
  else if den < 2 * r then q + 1
  else if q % 2 = 0 then q else q + 1

/-- Rendering of the exact rational num/den with one decimal digit, as the
Rust one-decimal float format produces for an exactly representable value. -/
def oneDecimal (num den : Nat) : String :=
  let t := roundHalfToEven (10 * num) den
  toString (t / 10) ++ "." ++ toString (t % 10)

/-- format_size from src/tauri/src/modules/utils.rs (same body in
src/src-tauri/src/lib.rs). The source divides bytes as f64 by 1024.0 (and by
1024.0 again): for bytes below 2 to the 53 the f64 cast is exact and division
by a power of two only shifts the exponent, so the printed value is the exact
rational rendered here. Beyond 2 to the 53 the cast itself may round, which
this Nat model does not reproduce. -/
def format_size (bytes : Nat) : String :=
  if bytes < 1024 then toString bytes ++ " B"
  else if bytes < 1024 * 1024 then oneDecimal bytes 1024 ++ " KB"
  else oneDecimal bytes (1024 * 1024) ++ " MB"

/-- Minimal JSON value model for the parsed response body (serde_json Value). -/
inductive Json where
  | null
  | bool (b : Bool)
  | num (n : Int)
  | str (s : String)
  | arr (elems : List Json)
  | obj (fields : List (String × Json))

/-- Indexing json[key] on a serde_json Value: field lookup on an object,
Null for a missing key or a non-object. -/
def Json.get (j : Json) (key : String) : Json :=
  match j with
  | .obj fields =>
    match fields.lookup key with
    | some v => v
    | none => .null
  | _ => .null

/-- Value::as_str: some for a JSON string, none otherwise. -/
def Json.asStr : Json → Option String
  | .str s => some s
  | _ => none

/-- One server behaviour for one HTTP attempt: either a response with a
status code, a body text and the result of parsing that body as JSON, or a
transport failure with the reqwest error predicates is_timeout / is_connect. -/
inductive HttpAttempt where
  | response (status : Nat) (text : String) (json : Option Json)
  | failure (is_timeout : Bool) (is_connect : Bool)

/-- StatusCode::is_success of the http crate: 200 to 299. -/
def is_success (status : Nat) : Bool := decide (200 ≤ status) && decide (status < 300)

/-- StatusCode::is_server_error of the http crate: 500 to 599. -/
def is_server_error (status : Nat) : Bool := decide (500 ≤ status) && decide (status < 600)

/-- upload_image_with_retry from src/src-tauri/src/modules/upload.rs lines
63-171 (identical body in src/src-tauri/src/lib.rs lines 290-410).

The payload argument is the result of stripping the data URL header and
base64-decoding the input string, which the recursion passes along unchanged,
so it is decoded to the same bytes on every iteration: none models a decode
failure (the function returns the decode error before any HTTP attempt),
some bytes models a successful decode. Multipart construction and client
construction are infallible in practice and are not modelled as failure
points. The returned Nat counts the HTTP attempts issued.

The transport branch keeps the source operator precedence verbatim:
is_timeout || (is_connect && retry_count < 2). -/
def upload_image_with_retry :
    Option (List Nat) → List HttpAttempt → Nat → Option (Except String UploadResult × Nat)
  | none, _, _ => some (Except.error "Failed to decode base64", 0)
  | some _, [], _ => none
  | some image_bytes, attempt :: rest, retry_count =>
    match attempt with
    | .response status text json =>
      if is_success status then
        match json with
        | some j =>
          match (j.get "url").asStr with
          | some url_path =>
            let full_url := "http://REDACTED_HOST:38080" ++ url_path
            let filename := ((j.get "originalFileName").asStr).getD "image.png"
            let size := format_size image_bytes.length
            some (Except.ok
              { success := true, url := some full_url, filename := some filename
                size := some size, duration := none, error := none }, 1)
          | none => some (Except.error ("No url field in response: " ++ text), 1)
        | none => some (Except.error ("Failed to parse JSON: " ++ text), 1)
      else if (is_server_error status || status == 429) && decide (retry_count < 2) then
        match upload_image_with_retry (some image_bytes) rest (retry_count + 1) with
        | some (r, n) => some (r, n + 1)
        | none => none
      else
        some (Except.error ("Upload failed with status " ++ toString status ++ ": " ++ text), 1)
    | .failure is_timeout is_connect =>
      if is_timeout || (is_connect && decide (retry_count < 2)) then
        match upload_image_with_retry (some image_bytes) rest (retry_count + 1) with
        | some (r, n) => some (r, n + 1)
        | none => none
      else
        some (Except.error "Network error", 1)

/-- usize modulus (the build targets a 64-bit platform). -/
def USIZEMOD : Nat := 2 ^ 64

/-- u32 modulus; the source casts usize dimensions with an as-cast, which
truncates modulo 2 to the 32. -/
def U32MOD : Nat := 2 ^ 32

/-- checked_mul on usize. -/
def checked_mul_usize (a b : Nat) : Option Nat :=
  if a * b < USIZEMOD then some (a * b) else none

/-- image_buffer_len of the image crate for an Rgba u8 pixel
(CHANNEL_COUNT = 4): checked 4 * width * height on usize. -/
def image_buffer_len (width height : Nat) : Option Nat :=
  (checked_mul_usize 4 width).bind (fun s => checked_mul_usize s height)

/-- check_image_fits of the image crate, used by ImageBuffer::from_raw:
the buffer is accepted when the required length is defined and is at most
the buffer length (a longer buffer is accepted, the excess is ignored). -/
def check_image_fits (width height len : Nat) : Bool :=
  match image_buffer_len width height with
  | some required => decide (required ≤ len)
  | none => false

/-- The fixed eight-byte PNG file signature. -/
def pngSignature : List Nat := [137, 80, 78, 71, 13, 10, 26, 10]

/-- Abstract model of the image crate PNG encoder invoked through
ImageBuffer::write_to: on a zero-sized image the underlying png encoder
reports a parameter error; otherwise it emits the PNG signature followed by
an (abstracted, injective) encoding of the dimensions and pixel data. The
claims below rely only on success or failure and on the signature. -/
def png_encode (width height : Nat) (pixels : List Nat) : Except String (List Nat) :=
  if width = 0 ∨ height = 0 then Except.error "Failed to encode PNG: zero size image"
  else Except.ok (pngSignature ++ width :: height :: pixels)

/-- rgba_to_png from src/src-tauri/src/modules/upload.rs lines 43-55
(identical body in src/src-tauri/src/lib.rs lines 268-282): build an
RgbaImage with ImageBuffer::from_raw(width as u32, height as u32, data) --
returning the buffer-creation error when from_raw yields None -- then encode
it as PNG via write_to, which reads exactly the first 4*width*height bytes of
the accepted container (ImageBuffer inner_pixels). -/
def rgba_to_png (rgba_data : List Nat) (width height : Nat) : Except String (List Nat) :=
  let w := width % U32MOD
  let h := height % U32MOD
  if check_image_fits w h rgba_data.length then
    png_encode w h (rgba_data.take (4 * w * h))
  else
    Except.error "Failed to create image buffer"

/-- The clipboard as seen by one run: Clipboard::new() may fail
(unavailable), get_image() may fail (noImage), or raw RGBA data with
dimensions is returned. -/
inductive ClipboardState where
  | unavailable
  | noImage
  | image (bytes : List Nat) (width height : Nat)

/-- Observable UI-directed actions of one worker run, in program order. -/
inductive UiEvent where
  | windowShow
  | windowSetFocus
  | sleepMs (ms : Nat)
  | emitSwitchToUpload
  | emitUploadResult (result : UploadResult)
deriving Repr, DecidableEq

/-- The notification sequence shared by the success, upload-failure and
empty-clipboard branches of handle_upload_shortcut: show and focus the main
window when it exists, sleep 50 ms, emit switch-to-upload, sleep 50 ms, emit
the upload-result event. -/
def notifyEvents (window_present : Bool) (result : UploadResult) : List UiEvent :=
  (if window_present then
    [UiEvent.windowShow, UiEvent.windowSetFocus, UiEvent.sleepMs 50,
      UiEvent.emitSwitchToUpload]
  else []) ++ [UiEvent.sleepMs 50, UiEvent.emitUploadResult result]

/-- The failure UploadResult literal constructed at each failure site of
handle_upload_shortcut: success false, only the error message populated. -/
def failureResult (msg : String) : UploadResult :=
  { success := false, url := none, filename := none, size := none
    duration := none, error := some msg }

/-- handle_upload_shortcut from src/src-tauri/src/modules/upload.rs lines
174-272 (the same logic is inlined in the shortcut handler of
src/src-tauri/src/lib.rs lines 464-573), modelled as the list of UI-directed
events the spawned worker performs. window_present models whether
get_webview_window("main") finds the main window. The worker feeds the PNG
bytes through a base64 data URL into upload_image_with_retry; the standard
base64 round-trip restores exactly the PNG bytes, so the upload payload is
some png_bytes. A none result propagates the exhausted-trace case of
upload_image_with_retry (the run is still issuing attempts). -/
def handle_upload_shortcut (clipboard : ClipboardState) (window_present : Bool)
    (server : List HttpAttempt) : Option (List UiEvent) :=
  match clipboard with
  | .unavailable => some []
  | .noImage => some (notifyEvents window_present (failureResult "No image in clipboard"))
  | .image bytes width height =>
    match rgba_to_png bytes width height with
    | .error e =>
      some ([UiEvent.emitUploadResult (failureResult ("Failed to convert image: " ++ e))] ++
        (if window_present then
          [UiEvent.windowShow, UiEvent.windowSetFocus, UiEvent.emitSwitchToUpload]
        else []))
    | .ok png_bytes =>
      match upload_image_with_retry (some png_bytes) server 0 with
      | none => none
      | some (Except.ok result, _) => some (notifyEvents window_present result)
      | some (Except.error err, _) => some (notifyEvents window_present (failureResult err))

/-- The upload-result payloads among the events of a run. -/
def emittedResults (evs : List UiEvent) : List UploadResult :=
  evs.filterMap (fun e =>
    match e with
    | .emitUploadResult r => some r
    | _ => none)

/-- The events of a run restricted to the window-show, window-focus,
switch-to-upload and upload-result actions (dropping the sleeps), keeping
their relative order. -/
def keyEvents (evs : List UiEvent) : List UiEvent :=
  evs.filter (fun e =>
    match e with
    | .windowShow => true
    | .windowSetFocus => true
    | .emitSwitchToUpload => true
    | .emitUploadResult _ => true
    | _ => false)

/-- The invariant claimed for every UploadOutcome the pipeline produces. -/
def outcome_inv (r : UploadResult) : Prop :=
  (r.success = true → r.url.isSome = true ∧ r.error = none) ∧
  (r.success = false → r.error.isSome = true)

/-- Helper: a successful result of upload_image_with_retry is always the one
success literal of the source, on every retry depth: success true, url and
filename and size populated, duration and error absent. -/
theorem upload_ok_fields :
    ∀ (trace : List HttpAttempt) (payload : Option (List Nat)) (rc n : Nat) (r : UploadResult),
      upload_image_with_retry payload trace rc = some (Except.ok r, n) →
      r.success = true ∧ r.url.isSome = true ∧ r.filename.isSome = true ∧
        r.size.isSome = true ∧ r.duration = none ∧ r.error = none := by
  intro trace
  induction trace with
  | nil =>
    intro payload rc n r h
    cases payload <;> simp [upload_image_with_retry] at h
  | cons attempt rest ih =>
    intro payload rc n r h
    cases payload with
    | none => simp [upload_image_with_retry] at h
    | some bytes =>
      cases attempt with
      | response status text json =>
        by_cases hs : is_success status = true
        · cases json with
          | none => simp [upload_image_with_retry, hs] at h
          | some j =>
            cases hurl : (j.get "url").asStr with
            | none => simp [upload_image_with_retry, hs, hurl] at h
            | some url_path =>
              simp [upload_image_with_retry, hs, hurl] at h
              obtain ⟨h1, -⟩ := h
              subst h1
              simp
        · by_cases hr : ((is_server_error status || status == 429) && decide (rc < 2)) = true
          · cases hrec : upload_image_with_retry (some bytes) rest (rc + 1) with
            | none => simp [upload_image_with_retry, hs, hr, hrec] at h
            | some p =>
              obtain ⟨r0, n0⟩ := p
              simp [upload_image_with_retry, hs, hr, hrec] at h
              obtain ⟨h1, -⟩ := h
              subst h1
              exact ih (some bytes) (rc + 1) n0 r hrec
          · simp [upload_image_with_retry, hs, hr] at h
      | failure is_timeout is_connect =>
        by_cases hr : (is_timeout || (is_connect && decide (rc < 2))) = true
        · cases hrec : upload_image_with_retry (some bytes) rest (rc + 1) with
          | none => simp [upload_image_with_retry, hr, hrec] at h
          | some p =>
            obtain ⟨r0, n0⟩ := p
            simp [upload_image_with_retry, hr, hrec] at h
            obtain ⟨h1, -⟩ := h
            subst h1
            exact ih (some bytes) (rc + 1) n0 r hrec
        · simp [upload_image_with_retry, hr] at h

/-- Helper: an upload-result event belongs to the shared notification
sequence exactly when it carries its terminal result. -/
theorem mem_notifyEvents (wp : Bool) (res r : UploadResult) :
    UiEvent.emitUploadResult r ∈ notifyEvents wp res ↔ r = res := by
  cases wp <;> simp [notifyEvents]

/-- Helper: every upload-result payload a run emits is either one of the
failure literals of handle_upload_shortcut or a successful result of
upload_image_with_retry. -/
theorem handle_emitted_result_cases :
    ∀ (cb : ClipboardState) (wp : Bool) (server : List HttpAttempt)
      (evs : List UiEvent) (r : UploadResult),
      handle_upload_shortcut cb wp server = some evs →
      UiEvent.emitUploadResult r ∈ evs →
      (∃ msg, r = failureResult msg) ∨
        (∃ png n, upload_image_with_retry (some png) server 0 = some (Except.ok r, n)) := by
  intro cb wp server evs r h hmem
  cases cb with
  | unavailable =>
    simp [handle_upload_shortcut] at h
    subst h
    simp at hmem
  | noImage =>
    simp [handle_upload_shortcut] at h
    subst h
    rw [mem_notifyEvents] at hmem
    exact Or.inl ⟨_, hmem⟩
  | image bytes width height =>
    cases hpng : rgba_to_png bytes width height with
    | error e =>
      simp [handle_upload_shortcut, hpng] at h
      subst h
      cases wp <;> simp at hmem <;> exact Or.inl ⟨_, hmem⟩
    | ok png_bytes =>
      cases hup : upload_image_with_retry (some png_bytes) server 0 with
      | none => simp [handle_upload_shortcut, hpng, hup] at h
      | some p =>
        obtain ⟨res, n⟩ := p
        cases res with
        | ok res =>
          simp [handle_upload_shortcut, hpng, hup] at h
          subst h
          rw [mem_notifyEvents] at hmem
          subst hmem
          exact Or.inr ⟨png_bytes, n, hup⟩
        | error err =>
          simp [handle_upload_shortcut, hpng, hup] at h
          subst h
          rw [mem_notifyEvents] at hmem
          exact Or.inl ⟨_, hmem⟩

/-- Claim C1: against a server whose every attempt is a timeout, the client
never stops retrying -- for every finite number of timed-out attempts, at
every retry depth, the call is still issuing further attempts (result none),
so the total attempt count is not capped at 3. By contrast the server-error
branch is capped as claimed: three 503 responses produce exactly 3 attempts
and then the server-rejected error. The transport branch condition parses as
is_timeout || (is_connect && retry_count < 2), so the attempt counter is not
consulted for timeouts. -/
theorem upload_timeout_retries_unbounded :
    (∀ (bytes : List Nat) (n rc : Nat),
        upload_image_with_retry (some bytes)
          (List.replicate n (HttpAttempt.failure true false)) rc = none) ∧
      upload_image_with_retry (some [0])
          (List.replicate 3 (HttpAttempt.response 503 "err" none)) 0 =
        some (Except.error "Upload failed with status 503: err", 3) := by
  constructor
  · intro bytes n
    induction n with
    | zero => intro rc; simp [upload_image_with_retry]
    | succ m ih =>
      intro rc
      simp [List.replicate_succ, upload_image_with_retry, ih (rc + 1)]
  · rfl

/-- Claim C6: a response whose status is neither a success, nor a 5xx server
error, nor 429, makes the call fail immediately with the server-rejected
error carrying the status and body, after exactly 1 HTTP attempt, whatever
the rest of the server trace would have answered. -/
theorem upload_client_error_no_retry (bytes : List Nat) (status : Nat) (text : String)
    (json : Option Json) (rest : List HttpAttempt)
    (hs : is_success status = false)
    (hse : is_server_error status = false)
    (h429 : status ≠ 429) :
    upload_image_with_retry (some bytes) (HttpAttempt.response status text json :: rest) 0 =
      some (Except.error ("Upload failed with status " ++ toString status ++ ": " ++ text), 1) := by
  simp [upload_image_with_retry, hs, hse, h429]

/-- Witness for C6 at status 404. -/
theorem upload_client_error_no_retry_witness :
    upload_image_with_retry (some [0]) [HttpAttempt.response 404 "nf" none] 0 =
      some (Except.error ("Upload failed with status " ++ toString 404 ++ ": " ++ "nf"), 1) :=
  upload_client_error_no_retry [0] 404 "nf" none [] (by decide) (by decide) (by decide)

/-- Claim C4: a 2xx response whose body parses to JSON with a string field
url returns success immediately (1 attempt): the url is the configured base
concatenated with the raw path verbatim, the filename is the string field
originalFileName when present and image.png otherwise, the size is the
formatted payload length; duration and error are absent. -/
theorem upload_success_parse (bytes : List Nat) (status : Nat) (text : String)
    (j : Json) (url_path : String) (rest : List HttpAttempt)
    (hs : is_success status = true)
    (hurl : (j.get "url").asStr = some url_path) :
    upload_image_with_retry (some bytes) (HttpAttempt.response status text (some j) :: rest) 0 =
      some (Except.ok
        { success := true
          url := some ("http://REDACTED_HOST:38080" ++ url_path)
          filename := some (((j.get "originalFileName").asStr).getD "image.png")
          size := some (format_size bytes.length)
          duration := none, error := none }, 1) := by
  simp [upload_image_with_retry, hs, hurl]

/-- Witness for C4 at the concrete spec example body. -/
theorem upload_success_parse_witness :
    upload_image_with_retry (some [0])
        [HttpAttempt.response 200 "body" (some (Json.obj
          [("url", Json.str "/img/abc.png"), ("originalFileName", Json.str "shot.png")]))] 0 =
      some (Except.ok
        { success := true
          url := some "http://REDACTED_HOST:38080/img/abc.png"
          filename := some "shot.png"
          size := some "1 B"
          duration := none, error := none }, 1) := by
  simpa using upload_success_parse [0] 200 "body"
    (Json.obj [("url", Json.str "/img/abc.png"), ("originalFileName", Json.str "shot.png")])
    "/img/abc.png" [] (by decide) (by rfl)

/-- Claim C5: a 2xx response whose body is not valid JSON, or whose JSON has
no string field url, makes the call return a protocol error immediately after
exactly 1 attempt, no matter what the rest of the server trace holds. -/
theorem upload_protocol_error_no_retry (bytes : List Nat) (status : Nat) (text : String)
    (json : Option Json) (rest : List HttpAttempt)
    (hs : is_success status = true)
    (hbad : json = none ∨ ∃ j, json = some j ∧ (j.get "url").asStr = none) :
    ∃ msg, upload_image_with_retry (some bytes) (HttpAttempt.response status text json :: rest) 0 =
      some (Except.error msg, 1) := by
  rcases hbad with h | ⟨j, hj, hurl⟩
  · subst h
    refine ⟨"Failed to parse JSON: " ++ text, ?_⟩
    simp [upload_image_with_retry, hs]
  · subst hj
    refine ⟨"No url field in response: " ++ text, ?_⟩
    simp [upload_image_with_retry, hs, hurl]

/-- Witness for C5: a 200 response whose JSON object lacks url, with one more
server behaviour available in the trace that is never consumed. -/
theorem upload_protocol_error_no_retry_witness :
    ∃ msg, upload_image_with_retry (some [0])
        [HttpAttempt.response 200 "x" (some (Json.obj [])),
          HttpAttempt.response 503 "y" none] 0 =
      some (Except.error msg, 1) :=
  upload_protocol_error_no_retry [0] 200 "x" (some (Json.obj []))
    [HttpAttempt.response 503 "y" none] (by decide) (Or.inr ⟨Json.obj [], rfl, rfl⟩)

/-- Counterexample to claim C7 as stated: an 8-byte buffer for a 1 by 1 image
has length different from width*height*4, yet rgba_to_png succeeds, because
ImageBuffer::from_raw only rejects buffers that are too short; excess bytes
are ignored. -/
theorem rgba_to_png_mismatched_buffer_accepted :
    (List.replicate 8 0 : List Nat).length ≠ 1 * 1 * 4 ∧
      (rgba_to_png (List.replicate 8 0) 1 1).isOk = true := by
  exact ⟨by decide, by rfl⟩

/-- Claim C7 as amended: rgba_to_png fails with the buffer-creation error
for every buffer shorter than 4 * width * height (dimensions taken modulo
2^32 as the source casts them to u32), and succeeds for every buffer of at
least that length when both truncated dimensions are nonzero (the product
bound keeps the checked usize multiplication of the fit test in range, as on
any real buffer). -/
theorem rgba_to_png_buffer_check :
    (∀ (rgba_data : List Nat) (width height : Nat),
        rgba_data.length < 4 * (width % U32MOD) * (height % U32MOD) →
        rgba_to_png rgba_data width height = Except.error "Failed to create image buffer") ∧
    (∀ (rgba_data : List Nat) (width height : Nat),
        0 < width % U32MOD → 0 < height % U32MOD →
        4 * (width % U32MOD) * (height % U32MOD) < USIZEMOD →
        4 * (width % U32MOD) * (height % U32MOD) ≤ rgba_data.length →
        (rgba_to_png rgba_data width height).isOk = true) := by
  constructor
  · intro rgba_data width height hshort
    have hfits : check_image_fits (width % U32MOD) (height % U32MOD) rgba_data.length = false := by
      by_cases h1 : 4 * (width % U32MOD) < USIZEMOD
      · by_cases h2 : 4 * (width % U32MOD) * (height % U32MOD) < USIZEMOD
        · simp [check_image_fits, image_buffer_len, checked_mul_usize, h1, h2]
          omega
        · simp [check_image_fits, image_buffer_len, checked_mul_usize, h1, h2]
      · simp [check_image_fits, image_buffer_len, checked_mul_usize, h1]
    simp [rgba_to_png, hfits]
  · intro rgba_data width height hw hh hbound hlen
    have h1 : 4 * (width % U32MOD) < USIZEMOD := by
      have : 4 * (width % U32MOD) ≤ 4 * (width % U32MOD) * (height % U32MOD) :=
        Nat.le_mul_of_pos_right _ hh
      omega
    have hfits : check_image_fits (width % U32MOD) (height % U32MOD) rgba_data.length = true := by
      simp [check_image_fits, image_buffer_len, checked_mul_usize, h1, hbound]
      omega
    have hz : ¬((width % U32MOD) = 0 ∨ (height % U32MOD) = 0) := by omega
    simp [rgba_to_png, hfits, png_encode, hz, Except.isOk, Except.toBool]

/-- Witness for C7 as amended: a 3-byte buffer for 1 by 1 is rejected; an
8-byte buffer for 2 by 1 (exact length) is accepted. -/
theorem rgba_to_png_buffer_check_witness :
    rgba_to_png (List.replicate 3 0) 1 1 = Except.error "Failed to create image buffer" ∧
      (rgba_to_png (List.replicate 8 0) 2 1).isOk = true :=
  ⟨rgba_to_png_buffer_check.1 (List.replicate 3 0) 1 1 (by decide),
    rgba_to_png_buffer_check.2 (List.replicate 8 0) 2 1 (by decide) (by decide)
      (by decide) (by decide)⟩

/-- Helper: the rounded tenths value of roundHalfToEven is within half a
denominator of the exact value, as one-decimal rounding must be. -/
theorem roundHalfToEven_close (num den : Nat) (hden : 0 < den) :
    2 * ((num : Int) - den * roundHalfToEven num den).natAbs ≤ den := by
  have key : ∀ q r : Nat, den * q + r = num → r < den →
      2 * ((num : Int) - den *
        (if 2 * r < den then q
          else if den < 2 * r then q + 1
          else if q % 2 = 0 then q else q + 1)).natAbs ≤ den := by
    intro q r hdm hlt
    have hdmz : (den : Int) * (q : Int) + (r : Int) = (num : Int) := by exact_mod_cast hdm
    have hltz : (r : Int) < (den : Int) := by exact_mod_cast hlt
    by_cases h1 : 2 * r < den
    · have h1z : 2 * (r : Int) < (den : Int) := by exact_mod_cast h1
      simp only [if_pos h1]
      omega
    · by_cases h2 : den < 2 * r
      · have h2z : (den : Int) < 2 * (r : Int) := by exact_mod_cast h2
        simp only [if_neg h1, if_pos h2]
        push_cast
        have hq1 : (den : Int) * ((q : Int) + 1) = (den : Int) * (q : Int) + (den : Int) := by
          ring
        omega
      · have he : 2 * (r : Int) = (den : Int) := by
          have h2r : 2 * r = den := by omega
          exact_mod_cast h2r
        by_cases h3 : q % 2 = 0
        · simp only [if_neg h1, if_neg h2, if_pos h3]
          omega
        · simp only [if_neg h1, if_neg h2, if_neg h3]
          push_cast
          have hq1 : (den : Int) * ((q : Int) + 1) = (den : Int) * (q : Int) + (den : Int) := by
            ring
          omega
  have h := key (num / den) (num % den) (Nat.div_add_mod num den) (Nat.mod_lt num hden)
  simpa [roundHalfToEven] using h

/-- Claim C9: format_size renders the exact count below 1024 bytes with unit
B; from 1024 up to 1024^2 it renders the byte count divided by 1024 with one
decimal digit and unit KB, the printed tenths value being within half a step
of the exact ratio; above that, the same with divisor 1024^2 and unit MB; and
the three spec examples hold. The 2^53 bounds keep the f64 cast of the
source exact, the range this Nat model is faithful on. -/
theorem format_size_spec :
    (∀ n : Nat, n < 1024 → format_size n = toString n ++ " B") ∧
    (∀ n : Nat, 1024 ≤ n → n < 1024 * 1024 → n < 2 ^ 53 →
        ∃ t : Nat, format_size n = toString (t / 10) ++ "." ++ toString (t % 10) ++ " KB" ∧
          2 * (10 * (n : Int) - 1024 * t).natAbs ≤ 1024) ∧
    (∀ n : Nat, 1024 * 1024 ≤ n → n < 2 ^ 53 →
        ∃ t : Nat, format_size n = toString (t / 10) ++ "." ++ toString (t % 10) ++ " MB" ∧
          2 * (10 * (n : Int) - 1024 * 1024 * t).natAbs ≤ 1024 * 1024) ∧
    format_size 500 = "500 B" ∧ format_size 2048 = "2.0 KB" ∧
      format_size (3 * 1024 * 1024) = "3.0 MB" := by
  refine ⟨?_, ?_, ?_, by rfl, by rfl, by rfl⟩
  · intro n h
    simp [format_size, h]
  · intro n h1 h2 _
    have h1' : ¬n < 1024 := by omega
    refine ⟨roundHalfToEven (10 * n) 1024, by simp [format_size, oneDecimal, h1', h2], ?_⟩
    have h := roundHalfToEven_close (10 * n) 1024 (by norm_num)
    have hc : ((10 * n : Nat) : Int) = 10 * (n : Int) := by push_cast; ring
    rw [hc] at h
    exact h
  · intro n h1 _
    have h1' : ¬n < 1024 := by omega
    have h2' : ¬n < 1024 * 1024 := by omega
    refine ⟨roundHalfToEven (10 * n) (1024 * 1024),
      by simp [format_size, oneDecimal, h1', h2'], ?_⟩
    have h := roundHalfToEven_close (10 * n) (1024 * 1024) (by norm_num)
    have hc : ((10 * n : Nat) : Int) = 10 * (n : Int) := by push_cast; ring
    rw [hc] at h
    exact h

/-- Witness for C9 at 2048 bytes through the KB clause. -/
theorem format_size_spec_witness :
    ∃ t : Nat, format_size 2048 = toString (t / 10) ++ "." ++ toString (t % 10) ++ " KB" ∧
      2 * (10 * (2048 : Int) - 1024 * t).natAbs ≤ 1024 :=
  format_size_spec.2.1 2048 (by decide) (by decide) (by decide)

/-- Helper: the notification sequence emits exactly its terminal result. -/
theorem emittedResults_notifyEvents (wp : Bool) (r : UploadResult) :
    emittedResults (notifyEvents wp r) = [r] := by
  cases wp <;> simp [notifyEvents, emittedResults]

/-- Helper: the notification sequence restricted to its key events, in
order: window show, window focus, switch-to-upload, then the result. -/
theorem keyEvents_notifyEvents (wp : Bool) (r : UploadResult) :
    keyEvents (notifyEvents wp r) =
      if wp then
        [UiEvent.windowShow, UiEvent.windowSetFocus, UiEvent.emitSwitchToUpload,
          UiEvent.emitUploadResult r]
      else [UiEvent.emitUploadResult r] := by
  cases wp <;> simp [notifyEvents, keyEvents]

/-- Claim C8: every UploadOutcome the pipeline produces -- the success value
of upload_image_with_retry and every payload of an upload-result event of a
run -- satisfies the invariant: success true implies url present and error
absent; success false implies error present. -/
theorem upload_outcome_invariant :
    (∀ (payload : Option (List Nat)) (trace : List HttpAttempt) (rc n : Nat) (r : UploadResult),
        upload_image_with_retry payload trace rc = some (Except.ok r, n) → outcome_inv r) ∧
    (∀ (cb : ClipboardState) (wp : Bool) (server : List HttpAttempt)
        (evs : List UiEvent) (r : UploadResult),
        handle_upload_shortcut cb wp server = some evs →
        UiEvent.emitUploadResult r ∈ evs → outcome_inv r) := by
  have hfail : ∀ msg, outcome_inv (failureResult msg) := by
    intro msg
    constructor
    · intro hcontra
      simp [failureResult] at hcontra
    · intro _
      simp [failureResult]
  have hok : ∀ (payload : Option (List Nat)) (trace : List HttpAttempt) (rc n : Nat)
      (r : UploadResult),
      upload_image_with_retry payload trace rc = some (Except.ok r, n) → outcome_inv r := by
    intro payload trace rc n r h
    obtain ⟨hs, hurl, -, -, -, herr⟩ := upload_ok_fields trace payload rc n r h
    constructor
    · intro _
      exact ⟨hurl, herr⟩
    · intro hfalse
      simp [hs] at hfalse
  refine ⟨hok, ?_⟩
  intro cb wp server evs r h hmem
  rcases handle_emitted_result_cases cb wp server evs r h hmem with ⟨msg, rfl⟩ | ⟨png, n, hup⟩
  · exact hfail msg
  · exact hok (some png) server 0 n r hup

/-- Witness for C8: the invariant instantiated through a concrete
empty-clipboard run. -/
theorem upload_outcome_invariant_witness :
    outcome_inv (failureResult "No image in clipboard") :=
  upload_outcome_invariant.2 ClipboardState.noImage true []
    (notifyEvents true (failureResult "No image in clipboard"))
    (failureResult "No image in clipboard") rfl (by simp [notifyEvents])

/-- Claim C10: the duration field of every UploadOutcome the pipeline
produces is none -- no code path populates it. -/
theorem upload_duration_always_none :
    (∀ (payload : Option (List Nat)) (trace : List HttpAttempt) (rc n : Nat) (r : UploadResult),
        upload_image_with_retry payload trace rc = some (Except.ok r, n) → r.duration = none) ∧
    (∀ (cb : ClipboardState) (wp : Bool) (server : List HttpAttempt)
        (evs : List UiEvent) (r : UploadResult),
        handle_upload_shortcut cb wp server = some evs →
        UiEvent.emitUploadResult r ∈ evs → r.duration = none) := by
  refine ⟨?_, ?_⟩
  · intro payload trace rc n r h
    exact (upload_ok_fields trace payload rc n r h).2.2.2.2.1
  · intro cb wp server evs r h hmem
    rcases handle_emitted_result_cases cb wp server evs r h hmem with ⟨msg, rfl⟩ | ⟨png, n, hup⟩
    · rfl
    · exact (upload_ok_fields server (some png) 0 n r hup).2.2.2.2.1

/-- Witness for C10 through a concrete empty-clipboard run. -/
theorem upload_duration_always_none_witness :
    (failureResult "No image in clipboard").duration = none :=
  upload_duration_always_none.2 ClipboardState.noImage true []
    (notifyEvents true (failureResult "No image in clipboard"))
    (failureResult "No image in clipboard") rfl (by simp [notifyEvents])

/-- Counterexample to claim C2 as stated: when Clipboard::new() itself fails
(clipboard access failure), the worker only logs and returns -- the run
performs no UI action at all and emits no upload-result event, a silent
termination, although the claim lists clipboard access failure among the
paths that must still notify. -/
theorem clipboard_unavailable_run_is_silent :
    handle_upload_shortcut ClipboardState.unavailable true [] = some [] ∧
      emittedResults [] = [] :=
  ⟨rfl, rfl⟩

/-- Claim C2 as amended: every run that gets past clipboard initialization
(every clipboard state other than unavailable) and terminates emits exactly
one upload-result event, and every emitted failure outcome carries an error
message; an empty clipboard in particular yields the outcome with success
false and error message No image in clipboard, and the switch-to-upload
signal is also emitted. Only the clipboard-initialization failure path
terminates silently. -/
theorem run_emits_one_result_after_clipboard_init :
    (∀ (cb : ClipboardState) (wp : Bool) (server : List HttpAttempt) (evs : List UiEvent),
        handle_upload_shortcut cb wp server = some evs →
        cb ≠ ClipboardState.unavailable →
        (emittedResults evs).length = 1 ∧
          ∀ r ∈ emittedResults evs, r.success = false → r.error.isSome = true) ∧
    (∀ (server : List HttpAttempt) (evs : List UiEvent),
        handle_upload_shortcut ClipboardState.noImage true server = some evs →
        emittedResults evs = [failureResult "No image in clipboard"] ∧
          UiEvent.emitSwitchToUpload ∈ evs) := by
  constructor
  · intro cb wp server evs h hne
    cases cb with
    | unavailable => exact absurd rfl hne
    | noImage =>
      simp [handle_upload_shortcut] at h
      subst h
      rw [emittedResults_notifyEvents]
      refine ⟨rfl, ?_⟩
      intro r hr _
      simp at hr
      subst hr
      simp [failureResult]
    | image bytes width height =>
      cases hpng : rgba_to_png bytes width height with
      | error e =>
        simp [handle_upload_shortcut, hpng] at h
        subst h
        cases wp <;> simp [emittedResults, failureResult]
      | ok png_bytes =>
        cases hup : upload_image_with_retry (some png_bytes) server 0 with
        | none => simp [handle_upload_shortcut, hpng, hup] at h
        | some p =>
          obtain ⟨res, n⟩ := p
          cases res with
          | ok res =>
            simp [handle_upload_shortcut, hpng, hup] at h
            subst h
            rw [emittedResults_notifyEvents]
            refine ⟨rfl, ?_⟩
            intro r hr hrf
            simp at hr
            subst hr
            obtain ⟨hs, -⟩ := upload_ok_fields server (some png_bytes) 0 n r hup
            simp [hs] at hrf
          | error err =>
            simp [handle_upload_shortcut, hpng, hup] at h
            subst h
            rw [emittedResults_notifyEvents]
            refine ⟨rfl, ?_⟩
            intro r hr _
            simp at hr
            subst hr
            simp [failureResult]
  · intro server evs h
    simp [handle_upload_shortcut] at h
    subst h
    refine ⟨emittedResults_notifyEvents true _, ?_⟩
    simp [notifyEvents]

/-- Witness for C2 as amended: the empty-clipboard clause at an empty server
trace. -/
theorem run_emits_one_result_after_clipboard_init_witness :
    emittedResults (notifyEvents true (failureResult "No image in clipboard")) =
        [failureResult "No image in clipboard"] ∧
      UiEvent.emitSwitchToUpload ∈ notifyEvents true (failureResult "No image in clipboard") :=
  run_emits_one_result_after_clipboard_init.2 []
    (notifyEvents true (failureResult "No image in clipboard")) rfl

/-- Counterexample to claim C3 as stated: in the encode-failure branch the
upload-result event is emitted first and the window show / focus /
switch-to-upload actions follow it, so the upload-result event is emitted
before the switch-to-upload signal in that run. -/
theorem encode_failure_emits_result_before_switch :
    handle_upload_shortcut (ClipboardState.image [] 1 1) true [] =
      some [UiEvent.emitUploadResult
          (failureResult "Failed to convert image: Failed to create image buffer"),
        UiEvent.windowShow, UiEvent.windowSetFocus, UiEvent.emitSwitchToUpload] := by
  rfl

/-- Claim C3 as amended: in the success, upload-failure and empty-clipboard
branches the key UI actions occur in the claimed order -- window show, window
focus, switch-to-upload, then the upload-result event (only the result event
when the main window is missing); in the encode-failure branch, however, the
upload-result event comes first, followed by window show, focus and
switch-to-upload, with no 50 ms delays. -/
theorem notify_order_by_branch :
    (∀ (cb : ClipboardState) (wp : Bool) (server : List HttpAttempt) (evs : List UiEvent),
        handle_upload_shortcut cb wp server = some evs →
        cb ≠ ClipboardState.unavailable →
        (∀ (bytes : List Nat) (w h : Nat), cb = ClipboardState.image bytes w h →
          (rgba_to_png bytes w h).isOk = true) →
        ∃ r, keyEvents evs =
          if wp then
            [UiEvent.windowShow, UiEvent.windowSetFocus, UiEvent.emitSwitchToUpload,
              UiEvent.emitUploadResult r]
          else [UiEvent.emitUploadResult r]) ∧
    (∀ (bytes : List Nat) (w h : Nat) (wp : Bool) (server : List HttpAttempt)
        (evs : List UiEvent) (e : String),
        handle_upload_shortcut (ClipboardState.image bytes w h) wp server = some evs →
        rgba_to_png bytes w h = Except.error e →
        keyEvents evs =
          [UiEvent.emitUploadResult (failureResult ("Failed to convert image: " ++ e))] ++
            if wp then
              [UiEvent.windowShow, UiEvent.windowSetFocus, UiEvent.emitSwitchToUpload]
            else []) := by
  constructor
  · intro cb wp server evs h hne hok
    cases cb with
    | unavailable => exact absurd rfl hne
    | noImage =>
      simp [handle_upload_shortcut] at h
      subst h
      exact ⟨_, keyEvents_notifyEvents wp _⟩
    | image bytes width height =>
      cases hpng : rgba_to_png bytes width height with
      | error e =>
        have := hok bytes width height rfl
        simp [hpng, Except.isOk, Except.toBool] at this
      | ok png_bytes =>
        cases hup : upload_image_with_retry (some png_bytes) server 0 with
        | none => simp [handle_upload_shortcut, hpng, hup] at h
        | some p =>
          obtain ⟨res, n⟩ := p
          cases res with
          | ok res =>
            simp [handle_upload_shortcut, hpng, hup] at h
            subst h
            exact ⟨res, keyEvents_notifyEvents wp res⟩
          | error err =>
            simp [handle_upload_shortcut, hpng, hup] at h
            subst h
            exact ⟨_, keyEvents_notifyEvents wp _⟩
  · intro bytes w h wp server evs e hrun hpng
    simp [handle_upload_shortcut, hpng] at hrun
    subst hrun
    cases wp <;> simp [keyEvents]

/-- Witness for C3 as amended: the ordered clause at a concrete
empty-clipboard run with the main window present. -/
theorem notify_order_by_branch_witness :
    ∃ r, keyEvents (notifyEvents true (failureResult "No image in clipboard")) =
      [UiEvent.windowShow, UiEvent.windowSetFocus, UiEvent.emitSwitchToUpload,
        UiEvent.emitUploadResult r] := by
  have h := notify_order_by_branch.1 ClipboardState.noImage true []
    (notifyEvents true (failureResult "No image in clipboard")) rfl
    (fun hc => ClipboardState.noConfusion hc)
    (fun bytes w hh hc => ClipboardState.noConfusion hc)
  simpa using h

end Pulse
